import Mathlib

/-!
Shallow embedding of the DonationWagon donation-cart component
(`DonationCart`): the sync engine (`fetchDonations`, `checkForRefresh`,
`handleDeleteDonation`), the confirmation workflow (`onClose` of the
alert surface), and the pure view projections (`getItemCount`,
`getAllImages`). Network calls are modelled by passing the server
response as an explicit argument: `Except.error ()` is a transport or
parse failure (a thrown promise rejection), `Except.ok none` is a null
or undefined response value, and `Except.ok (some r)` is a received
response object `r`.
-/

namespace DonationWagon

/-- Donation kind, from the source union type: clothes or toys. -/
inductive DonationType where
  | clothes
  | toys
  deriving DecidableEq, Repr

/-- Donation status, from the source union type. -/
inductive Status where
  | pending
  | scheduled
  | completed
  | cancelled
  deriving DecidableEq, Repr

/-- One entry of `clothingItems`: type label, quantity, image URIs. -/
structure ClothingItem where
  type : String
  quantity : Int
  images : List String
  deriving DecidableEq, Repr

/-- One entry of `toyItems`: name, quantity, image URIs. -/
structure ToyItem where
  name : String
  quantity : Int
  images : List String
  deriving DecidableEq, Repr

/-- The `DonationItem` record type of the component. -/
structure DonationItem where
  _id : String
  donationType : DonationType
  status : Status
  createdAt : String
  clothingItems : Option (List ClothingItem)
  toyItems : Option (List ToyItem)
  pickupDate : Option String
  deriving DecidableEq, Repr

/-- The pending delete callback created by `handleDeleteDonation`: it
closes over the donation id and over the `donations` list as it was when
the callback was created. -/
structure DeleteCallback where
  donationId : String
  captured : List DonationItem
  deriving DecidableEq, Repr

/-- The component state: the `useState` variables of `DonationCart`. -/
structure CartState where
  donations : List DonationItem
  isLoading : Bool
  error : String
  alertVisible : Bool
  alertTitle : String
  alertMessage : String
  alertCallback : Option DeleteCallback
  deriving DecidableEq, Repr

/-- Shape of the list response: a success flag and a `donations` field
that is either an array (`some`) or missing/non-array (`none`). -/
structure DonationsResponse where
  success : Bool
  donations : Option (List DonationItem)
  deriving DecidableEq, Repr

/-- Shape of the delete response: a success flag. -/
structure DeleteResponse where
  success : Bool
  deriving DecidableEq, Repr

/-- Result of an api call: `Except.error ()` is a thrown transport/parse
failure, `Except.ok none` a null response, `Except.ok (some r)` a
response object. -/
abbrev ApiResult (α : Type) := Except Unit (Option α)

/-- The error string set by `fetchDonations` on failure. -/
def loadFailedMessage : String := "Failed to load donations"

/-- The alert message set by the delete callback on failure. -/
def deleteFailedMessage : String := "Failed to delete donation. Please try again."

/-- Embedding of `fetchDonations`: sets `isLoading`, clears `error`,
then branches on the response exactly as the source does
(`response && response.success && Array.isArray(response.donations)`,
with the else branch clearing `donations` and setting the error only
when `!response || !response.success`), and finally clears `isLoading`. -/
def fetchDonations (s : CartState) (resp : ApiResult DonationsResponse) : CartState :=
  let s0 := { s with isLoading := true, error := "" }
  let s1 :=
    match resp with
    | Except.error _ => { s0 with error := loadFailedMessage, donations := [] }
    | Except.ok none => { s0 with donations := [], error := loadFailedMessage }
    | Except.ok (some r) =>
      match r.donations, r.success with
      | some arr, true => { s0 with donations := arr }
      | some _, false => { s0 with donations := [], error := loadFailedMessage }
      | none, true => { s0 with donations := [] }
      | none, false => { s0 with donations := [], error := loadFailedMessage }
  { s1 with isLoading := false }

/-- Embedding of `getItemCount`: reduces the quantity sum over the item
list matching the donation type, 0 when that list is absent. -/
def getItemCount (donation : DonationItem) : Int :=
  match donation.donationType, donation.clothingItems, donation.toyItems with
  | DonationType.clothes, some items, _ =>
    items.foldl (fun total item => total + item.quantity) 0
  | DonationType.toys, _, some items =>
    items.foldl (fun total item => total + item.quantity) 0
  | _, _, _ => 0

/-- Embedding of `getAllImages`: walks the item list matching the
donation type, appending each non-empty image list to the accumulator. -/
def getAllImages (donation : DonationItem) : List String :=
  match donation.donationType, donation.clothingItems, donation.toyItems with
  | DonationType.clothes, some items, _ =>
    items.foldl
      (fun images item => if item.images.length > 0 then images ++ item.images else images) []
  | DonationType.toys, _, some items =>
    items.foldl
      (fun images item => if item.images.length > 0 then images ++ item.images else images) []
  | _, _, _ => []

/-- Embedding of `handleDeleteDonation`: opens the confirmation prompt
and stores the delete callback (which captures the current
`donations` list). -/
def handleDeleteDonation (s : CartState) (donationId : String) : CartState :=
  { s with
    alertTitle := "Confirm Deletion"
    alertMessage := "Are you sure you want to delete this donation?"
    alertVisible := true
    alertCallback := some { donationId := donationId, captured := s.donations } }

/-- Embedding of the async delete callback stored by
`handleDeleteDonation`: sets `isLoading`, on a successful response
filters the captured list by id and shows the Success prompt, otherwise
(thrown error, null response, or non-success flag, which the source
turns into a thrown error) shows the Error prompt; in both branches the
callback is cleared and finally `isLoading` is cleared. -/
def runDeleteCallback (cb : DeleteCallback) (s : CartState)
    (resp : ApiResult DeleteResponse) : CartState :=
  let s0 := { s with isLoading := true }
  let s1 :=
    match resp with
    | Except.ok (some r) =>
      if r.success then
        { s0 with
          donations := cb.captured.filter (fun donation => donation._id != cb.donationId)
          alertTitle := "Success"
          alertMessage := "Donation has been deleted successfully."
          alertCallback := none
          alertVisible := true }
      else
        { s0 with
          alertTitle := "Error"
          alertMessage := deleteFailedMessage
          alertCallback := none
          alertVisible := true }
    | _ =>
      { s0 with
        alertTitle := "Error"
        alertMessage := deleteFailedMessage
        alertCallback := none
        alertVisible := true }
  { s1 with isLoading := false }

/-- Embedding of the alert `onClose` handler (the resolution step of the
confirmation workflow): hides the prompt, then runs the stored callback
if one is present. The delete response is passed through to the callback
and is irrelevant when no callback is stored. -/
def onClose (s : CartState) (resp : ApiResult DeleteResponse) : CartState :=
  let s0 := { s with alertVisible := false }
  match s.alertCallback with
  | none => s0
  | some cb => runDeleteCallback cb s0 resp

/-- Number of callback invocations performed by one `onClose` call:
the handler body runs `alertCallback()` exactly once when a callback is
stored and never otherwise. -/
def onCloseInvocations (s : CartState) : Nat :=
  match s.alertCallback with
  | none => 0
  | some _ => 1

/-- Observable effect of one poll step. `written` is the value written
to the invalidation store, if any; `loads` counts `fetchDonations`
invocations; `state` is the resulting component state. -/
structure PollOutcome where
  written : Option String
  loads : Nat
  state : CartState
  deriving DecidableEq, Repr

/-- Embedding of `checkForRefresh`: reads the flag; when it equals
"true" it fires `fetchDonations` (without awaiting it) and writes
"false" back to the store; otherwise it does nothing. `resp` is the
response the fired load eventually receives. -/
def checkForRefresh (flag : Option String) (s : CartState)
    (resp : ApiResult DonationsResponse) : PollOutcome :=
  if flag = some "true" then
    { written := some "false", loads := 1, state := fetchDonations s resp }
  else
    { written := none, loads := 0, state := s }

/-- A list response is well-formed and successful when the response
object is present, its success flag is set and its collection field is
an array. -/
def wellFormedSuccess : ApiResult DonationsResponse → Bool
  | Except.ok (some r) => r.success && r.donations.isSome
  | _ => false

/-- A list response whose success flag is set but whose collection field
is missing or not an array. -/
def malformedSuccess : ApiResult DonationsResponse → Bool
  | Except.ok (some r) => r.success && r.donations.isNone
  | _ => false

/-- A delete response counts as acknowledged only when the response
object is present with its success flag set. -/
def deleteSucceeded : ApiResult DeleteResponse → Bool
  | Except.ok (some r) => r.success
  | _ => false

/-- The confirmation workflow is idle: no prompt is shown and no
pending action is stored. -/
def Idle (s : CartState) : Prop :=
  s.alertVisible = false ∧ s.alertCallback = none

/-- Quantities of the item list matching the donation kind, in order
(the item sequence the spec calls the records items). -/
def recordQuantities (donation : DonationItem) : List Int :=
  match donation.donationType with
  | DonationType.clothes => (donation.clothingItems.getD []).map ClothingItem.quantity
  | DonationType.toys => (donation.toyItems.getD []).map ToyItem.quantity

/-- Image lists of the item list matching the donation kind, in order. -/
def recordImageLists (donation : DonationItem) : List (List String) :=
  match donation.donationType with
  | DonationType.clothes => (donation.clothingItems.getD []).map ClothingItem.images
  | DonationType.toys => (donation.toyItems.getD []).map ToyItem.images

/-- A concrete component state used as the base of witnesses. -/
def sampleState : CartState :=
  { donations := []
    isLoading := false
    error := ""
    alertVisible := false
    alertTitle := ""
    alertMessage := ""
    alertCallback := none }

/-- Concrete record with id 1, matching the scenario of the spec. -/
def record1 : DonationItem :=
  { _id := "1"
    donationType := DonationType.clothes
    status := Status.pending
    createdAt := "2024-01-01"
    clothingItems := none
    toyItems := none
    pickupDate := none }

/-- Concrete record with id 2, matching the scenario of the spec. -/
def record2 : DonationItem :=
  { _id := "2"
    donationType := DonationType.clothes
    status := Status.completed
    createdAt := "2024-01-02"
    clothingItems := none
    toyItems := none
    pickupDate := none }

/-- Concrete state whose cache holds records 1 and 2. -/
def twoRecordState : CartState :=
  { sampleState with donations := [record1, record2] }

/-- Concrete clothing record with two items carrying images a, b and c. -/
def imageSampleRecord : DonationItem :=
  { record1 with clothingItems := some (
      [{ type := "shirt", quantity := 1, images := ["a", "b"] },
       { type := "pants", quantity := 1, images := ["c"] }]) }

/-- Concrete record of clothing kind whose clothing list is absent while
a non-empty toy list is present. -/
def mismatchedRecord : DonationItem :=
  { record1 with
    toyItems := some [{ name := "bear", quantity := 5, images := ["x"] }] }

/-- Folding addition of a projected quantity over a list equals the
accumulator plus the sum of the projections. -/
theorem foldl_add_eq_sum {α : Type} (f : α → Int) (l : List α) (acc : Int) :
    l.foldl (fun total item => total + f item) acc = acc + (l.map f).sum := by
  induction l generalizing acc with
  | nil => simp
  | cons x xs ih => simp [ih, add_assoc]

/-- Folding appending of non-empty projected lists over a list equals
the accumulator followed by the flattening of all projections. -/
theorem foldl_append_eq_flatten {α : Type} (f : α → List String) (l : List α)
    (acc : List String) :
    l.foldl (fun images item => if (f item).length > 0 then images ++ f item else images) acc
      = acc ++ (l.map f).flatten := by
  induction l generalizing acc with
  | nil => simp
  | cons x xs ih =>
    simp only [List.foldl_cons, List.map_cons, List.flatten_cons]
    by_cases h : (f x).length > 0
    · rw [if_pos h, ih, List.append_assoc]
    · rw [if_neg h, ih]
      have hx : f x = [] := by
        cases hfx : f x with
        | nil => rfl
        | cons a as => rw [hfx] at h; simp at h
      rw [hx]
      simp

/-- C1: counterexample. The claim states that every malformed load
response yields an empty cache and the LoadFailed error. The response
object with the success flag set but the collection field missing (a
malformed shape in the claim's own enumeration) does empty the cache,
but `fetchDonations` leaves `error` as the empty string — the source
only sets the error when `!response || !response.success`, so the
success-flag-set malformed case skips it. -/
theorem fetchDonations_malformed_error_counterexample :
    (fetchDonations twoRecordState
        (Except.ok (some { success := true, donations := none }))).donations = []
    ∧ (fetchDonations twoRecordState
        (Except.ok (some { success := true, donations := none }))).error
        ≠ loadFailedMessage :=
  ⟨rfl, by decide⟩

/-- C1 (amended): for every load call whose response is not a
well-formed success, the records cache becomes empty regardless of its
previous contents; the error state becomes LoadFailed except in the one
case where the success flag is set but the collection field is missing
or non-array, where the error stays cleared. -/
theorem fetchDonations_failure_clears_cache (s : CartState)
    (resp : ApiResult DonationsResponse) (h : wellFormedSuccess resp = false) :
    (fetchDonations s resp).donations = []
    ∧ (fetchDonations s resp).error
        = (if malformedSuccess resp then "" else loadFailedMessage) := by
  cases resp with
  | error e => exact ⟨rfl, rfl⟩
  | ok o =>
    cases o with
    | none => exact ⟨rfl, rfl⟩
    | some r =>
      obtain ⟨b, ds⟩ := r
      cases b with
      | true =>
        cases ds with
        | none => exact ⟨rfl, rfl⟩
        | some arr => simp [wellFormedSuccess] at h
      | false =>
        cases ds with
        | none => exact ⟨rfl, rfl⟩
        | some arr => exact ⟨rfl, rfl⟩

/-- Witness for the amended C1 theorem at a transport failure. -/
theorem fetchDonations_failure_clears_cache_witness :
    (fetchDonations sampleState (Except.error () : ApiResult DonationsResponse)).donations = []
    ∧ (fetchDonations sampleState (Except.error () : ApiResult DonationsResponse)).error
        = (if malformedSuccess (Except.error () : ApiResult DonationsResponse) then ""
           else loadFailedMessage) :=
  fetchDonations_failure_clears_cache sampleState (Except.error ()) rfl

/-- C6: for every load call whose response is well-formed with the
success flag set, the records cache becomes exactly the returned
sequence (same list, so same order, no filtering and no deduplication),
the error state is cleared, loading is cleared, and every other piece of
component state is untouched. -/
theorem fetchDonations_success_replaces_records (s : CartState) (arr : List DonationItem) :
    fetchDonations s (Except.ok (some { success := true, donations := some arr }))
      = { s with donations := arr, error := "", isLoading := false } :=
  rfl

/-- C2: a delete of an id with a unique occurrence in the cache,
confirmed and acknowledged by the server, removes exactly the matching
record and leaves all other records unchanged in their original relative
order: splitting the cache as prefix, the matching record, suffix (with
the id nowhere in prefix or suffix, which the data model's unique-id
invariant guarantees), the cache after the confirmed delete is exactly
prefix followed by suffix. -/
theorem handleDeleteDonation_success_removes_exactly_one (s : CartState)
    (donationId : String) (l₁ l₂ : List DonationItem) (r : DonationItem)
    (hsplit : s.donations = l₁ ++ r :: l₂) (hid : r._id = donationId)
    (h₁ : ∀ x ∈ l₁, x._id ≠ donationId) (h₂ : ∀ x ∈ l₂, x._id ≠ donationId) :
    (onClose (handleDeleteDonation s donationId)
        (Except.ok (some { success := true }))).donations = l₁ ++ l₂ := by
  have hflow : (onClose (handleDeleteDonation s donationId)
      (Except.ok (some { success := true }))).donations
      = s.donations.filter (fun d => d._id != donationId) := rfl
  rw [hflow, hsplit, List.filter_append]
  have e1 : l₁.filter (fun d => d._id != donationId) = l₁ :=
    List.filter_eq_self.mpr (fun a ha => by simp [h₁ a ha])
  have e2 : (r :: l₂).filter (fun d => d._id != donationId) = l₂ := by
    rw [List.filter_cons_of_neg]
    · exact List.filter_eq_self.mpr (fun a ha => by simp [h₂ a ha])
    · simp [hid]
  rw [e1, e2]

/-- Witness for C2: the spec scenario — cache holding records with ids
1 and 2, a confirmed successful delete of id 1 leaves only record 2. -/
theorem handleDeleteDonation_success_removes_exactly_one_witness :
    (onClose (handleDeleteDonation twoRecordState "1")
        (Except.ok (some { success := true }))).donations = [record2] := by
  simpa using
    handleDeleteDonation_success_removes_exactly_one twoRecordState "1" [] [record2]
      record1 rfl rfl (by simp) (by decide)

/-- C3: counterexample. The claim states a failed delete sets the error
state to DeleteFailed. After a confirmed delete of id 1 fails with a
transport error, the cache is indeed unchanged, but the engine's error
field still holds the empty string (no error value is ever recorded
there by the delete path); the failure is reported only through the
outcome prompt, whose title becomes Error. -/
theorem handleDeleteDonation_failure_error_counterexample :
    (onClose (handleDeleteDonation twoRecordState "1") (Except.error ())).donations
        = twoRecordState.donations
    ∧ (onClose (handleDeleteDonation twoRecordState "1") (Except.error ())).error = ""
    ∧ (onClose (handleDeleteDonation twoRecordState "1") (Except.error ())).alertTitle
        = "Error" :=
  ⟨rfl, rfl, rfl⟩

/-- C3 (amended): for every confirmed delete whose server response is
not a success acknowledgment, the records cache is byte-for-byte
identical to before, the engine's error field is left untouched (no
DeleteFailed value is recorded in it), loading is cleared, and the
failure is reported through the outcome prompt: title Error, the failure
message, no pending action. The whole resulting state is pinned down. -/
theorem handleDeleteDonation_failure_preserves_cache (s : CartState)
    (donationId : String) (resp : ApiResult DeleteResponse)
    (h : deleteSucceeded resp = false) :
    onClose (handleDeleteDonation s donationId) resp
      = { s with isLoading := false, alertVisible := true, alertTitle := "Error",
                 alertMessage := deleteFailedMessage, alertCallback := none } := by
  cases resp with
  | error e => rfl
  | ok o =>
    cases o with
    | none => rfl
    | some r =>
      obtain ⟨b⟩ := r
      cases b with
      | false => rfl
      | true => simp [deleteSucceeded] at h

/-- Witness for the amended C3 theorem at a server-reported failure. -/
theorem handleDeleteDonation_failure_preserves_cache_witness :
    onClose (handleDeleteDonation twoRecordState "1")
        (Except.ok (some { success := false }))
      = { twoRecordState with
          isLoading := false
          alertVisible := true
          alertTitle := "Error"
          alertMessage := deleteFailedMessage
          alertCallback := none } :=
  handleDeleteDonation_failure_preserves_cache twoRecordState "1"
    (Except.ok (some { success := false })) rfl

/-- C4: requesting confirmation with an attached action and then
resolving invokes the attached action exactly once (the handler body
runs the stored callback exactly once) and clears the stored action, so
the workflow holds no pending payload afterwards (the prompt then
showing is the chained outcome request, which carries no action);
resolving while the workflow is idle (no prompt shown, no stored action)
changes nothing and invokes no action. -/
theorem resolve_confirmation_behavior :
    (∀ (s : CartState) (donationId : String) (resp : ApiResult DeleteResponse),
        onCloseInvocations (handleDeleteDonation s donationId) = 1
        ∧ (onClose (handleDeleteDonation s donationId) resp).alertCallback = none)
    ∧ (∀ (s : CartState) (resp : ApiResult DeleteResponse), Idle s →
        onClose s resp = s ∧ onCloseInvocations s = 0) := by
  constructor
  · intro s donationId resp
    refine ⟨rfl, ?_⟩
    cases resp with
    | error e => rfl
    | ok o =>
      cases o with
      | none => rfl
      | some r =>
        obtain ⟨b⟩ := r
        cases b <;> rfl
  · intro s resp h
    obtain ⟨d, il, er, av, t, m, cb⟩ := s
    obtain ⟨h1, h2⟩ := h
    have h1' : av = false := h1
    have h2' : cb = none := h2
    subst h1'
    subst h2'
    exact ⟨rfl, rfl⟩

/-- Witness for C4 at a concrete idle state and concrete response. -/
theorem resolve_confirmation_behavior_witness :
    onClose sampleState (Except.error ()) = sampleState
    ∧ onCloseInvocations sampleState = 0 :=
  resolve_confirmation_behavior.2 sampleState (Except.error ()) ⟨rfl, rfl⟩

/-- C5: a poll step triggers a load if and only if the invalidation
flag reads exactly "true"; in that case exactly one load is invoked and
"false" is written back to the store; when the flag reads "false" no
load is triggered, nothing is written, and the component state is
untouched. -/
theorem checkForRefresh_load_iff_flag_true (flag : Option String) (s : CartState)
    (resp : ApiResult DonationsResponse) :
    ((checkForRefresh flag s resp).loads = 1 ↔ flag = some "true")
    ∧ (flag = some "true" → (checkForRefresh flag s resp).written = some "false")
    ∧ (flag = some "false" →
        (checkForRefresh flag s resp).written = none
        ∧ (checkForRefresh flag s resp).loads = 0
        ∧ (checkForRefresh flag s resp).state = s) := by
  by_cases h : flag = some "true" <;> simp [checkForRefresh, h]

/-- Witness for C5 at the two concrete flag values of the store. -/
theorem checkForRefresh_load_iff_flag_true_witness :
    (checkForRefresh (some "true") sampleState (Except.error ())).written = some "false"
    ∧ (checkForRefresh (some "false") sampleState (Except.error ())).written = none
    ∧ (checkForRefresh (some "false") sampleState (Except.error ())).loads = 0 :=
  ⟨(checkForRefresh_load_iff_flag_true (some "true") sampleState (Except.error ())).2.1 rfl,
   ((checkForRefresh_load_iff_flag_true (some "false") sampleState (Except.error ())).2.2
      rfl).1,
   ((checkForRefresh_load_iff_flag_true (some "false") sampleState (Except.error ())).2.2
      rfl).2.1⟩

/-- C10: a poll step that observes the flag "true" writes "false" back
for every possible outcome of the reload it fires, in particular when
that reload fails with a transport error (the write does not wait on the
reload); and a poll step that then observes "false" performs no load and
leaves everything unchanged, so a failed poll-triggered reload is not
retried until some external writer sets the flag to "true" again. -/
theorem checkForRefresh_resets_flag_regardless_of_outcome :
    (∀ s : CartState,
        (checkForRefresh (some "true") s (Except.error ())).written = some "false")
    ∧ (∀ (s : CartState) (resp : ApiResult DonationsResponse),
        (checkForRefresh (some "true") s resp).written = some "false")
    ∧ (∀ (s : CartState) (resp : ApiResult DonationsResponse),
        checkForRefresh (some "false") s resp
          = { written := none, loads := 0, state := s }) :=
  ⟨fun _ => rfl, fun _ _ => rfl, fun _ _ => rfl⟩

/-- C7: for every record, the image list projection equals the
flattening, in item order, of the image lists of the kind-matching
items — concatenation with no deduplication — and on the concrete
record with items carrying images a, b and c it returns exactly
a, b, c. When no item has images every image list is empty and the
flattening, hence the projection, is the empty list. -/
theorem getAllImages_eq_flatten :
    (∀ donation : DonationItem,
        getAllImages donation = (recordImageLists donation).flatten)
    ∧ getAllImages imageSampleRecord = ["a", "b", "c"] := by
  constructor
  · intro d
    obtain ⟨id, dt, st, ca, ci, ti, pd⟩ := d
    cases dt with
    | clothes =>
      cases ci with
      | none => cases ti <;> rfl
      | some items =>
        cases ti <;>
          simpa [getAllImages, recordImageLists] using
            foldl_append_eq_flatten ClothingItem.images items []
    | toys =>
      cases ti with
      | none => cases ci <;> rfl
      | some items =>
        cases ci <;>
          simpa [getAllImages, recordImageLists] using
            foldl_append_eq_flatten ToyItem.images items []
  · rfl

/-- C8: for every record, the item count projection equals the sum of
the quantities of the kind-matching items, and it is 0 on a record with
an empty items sequence. Idempotence holds trivially in this embedding:
the projection is a pure function of the record, so repeated calls give
the same value and there is no state to change. -/
theorem getItemCount_eq_sum_of_quantities :
    (∀ donation : DonationItem,
        getItemCount donation = (recordQuantities donation).sum)
    ∧ getItemCount { record1 with clothingItems := some [] } = 0 := by
  constructor
  · intro d
    obtain ⟨id, dt, st, ca, ci, ti, pd⟩ := d
    cases dt with
    | clothes =>
      cases ci with
      | none => cases ti <;> rfl
      | some items =>
        cases ti <;>
          simpa [getItemCount, recordQuantities] using
            foldl_add_eq_sum ClothingItem.quantity items 0
    | toys =>
      cases ti with
      | none => cases ci <;> rfl
      | some items =>
        cases ci <;>
          simpa [getItemCount, recordQuantities] using
            foldl_add_eq_sum ToyItem.quantity items 0
  · rfl

/-- C9: the projections consult only the item list matching the record
kind: replacing the non-matching list (by anything, absent or non-empty)
never changes their value, and when the kind-matching list is absent
they return 0 and the empty list even if the other list is present and
non-empty. Both projections are total Lean functions, so they are
defined on every record shape. -/
theorem projections_use_only_matching_kind :
    (∀ (d : DonationItem) (t : Option (List ToyItem)),
        d.donationType = DonationType.clothes →
        getItemCount { d with toyItems := t } = getItemCount d
        ∧ getAllImages { d with toyItems := t } = getAllImages d)
    ∧ (∀ (d : DonationItem) (c : Option (List ClothingItem)),
        d.donationType = DonationType.toys →
        getItemCount { d with clothingItems := c } = getItemCount d
        ∧ getAllImages { d with clothingItems := c } = getAllImages d)
    ∧ (∀ d : DonationItem,
        d.donationType = DonationType.clothes → d.clothingItems = none →
        getItemCount d = 0 ∧ getAllImages d = [])
    ∧ (∀ d : DonationItem,
        d.donationType = DonationType.toys → d.toyItems = none →
        getItemCount d = 0 ∧ getAllImages d = []) := by
  refine ⟨?_, ?_, ?_, ?_⟩
  · intro d t h
    obtain ⟨id, dt, st, ca, ci, ti, pd⟩ := d
    have h' : dt = DonationType.clothes := h
    subst h'
    cases ci <;> cases ti <;> cases t <;> exact ⟨rfl, rfl⟩
  · intro d c h
    obtain ⟨id, dt, st, ca, ci, ti, pd⟩ := d
    have h' : dt = DonationType.toys := h
    subst h'
    cases ci <;> cases ti <;> cases c <;> exact ⟨rfl, rfl⟩
  · intro d h hc
    obtain ⟨id, dt, st, ca, ci, ti, pd⟩ := d
    have h' : dt = DonationType.clothes := h
    have hc' : ci = none := hc
    subst h'
    subst hc'
    cases ti <;> exact ⟨rfl, rfl⟩
  · intro d h ht
    obtain ⟨id, dt, st, ca, ci, ti, pd⟩ := d
    have h' : dt = DonationType.toys := h
    have ht' : ti = none := ht
    subst h'
    subst ht'
    cases ci <;> exact ⟨rfl, rfl⟩

/-- Witness for C9: a record of clothing kind whose clothing list is
absent while a non-empty toy list is present projects to count 0 and an
empty image list. -/
theorem projections_use_only_matching_kind_witness :
    getItemCount mismatchedRecord = 0 ∧ getAllImages mismatchedRecord = [] :=
  projections_use_only_matching_kind.2.2.1 mismatchedRecord rfl rfl

end DonationWagon
